import Mathlib

/-!
Verification development for the tick-processing core of the `a_trading`
repository.

The Python sources are shallowly embedded as executable Lean definitions:

* dictionaries become insertion-ordered association lists (`dictGet`/`dictSet`);
* `collections.deque(maxlen = c)` becomes a list with `dequeAppend`;
* Python floats become rationals (`ℚ`); Python ints become `Int`;
* fallible operations return `Option`/`Except`;
* keyword-argument binding at the call sites that matter is modelled
  explicitly (`kwBindOk`), because the repository is in the middle of a
  `tick_id` / `ticker_id` rename and several call sites pass keywords the
  callee does not declare, which raises `TypeError` in Python.

Each definition carries a doc comment naming the Python source it embeds.
-/

namespace ATrading

/-- Insertion-ordered association-list lookup, the model of Python
`dict.get(k)`: the first binding of `k` (Python dicts bind each key once). -/
def dictGet {α : Type} (d : List (String × α)) (k : String) : Option α :=
  match d with
  | [] => none
  | (k1, v) :: rest => if k1 = k then some v else dictGet rest k

/-- Insertion-ordered association-list update, the model of Python
`d[k] = v`: replaces in place if present, else appends at the end. -/
def dictSet {α : Type} (d : List (String × α)) (k : String) (v : α) :
    List (String × α) :=
  match d with
  | [] => [(k, v)]
  | (k1, v1) :: rest =>
      if k1 = k then (k, v) :: rest else (k1, v1) :: dictSet rest k v

/-- The last `c` elements of a list (all of it when it is shorter), i.e. the
contents of a full bounded FIFO, and Python `xs[-c:]` for `c ≥ 1`. -/
def takeLast {α : Type} (c : Nat) (xs : List α) : List α :=
  xs.drop (xs.length - c)

/-- `collections.deque(maxlen := c).append`: append on the right, evicting
from the left whenever the length would exceed `c`
(`src/infrastructure/cache/in_memory.py` uses such deques for trades, bars
and the fast/medium/heavy indicator histories). -/
def dequeAppend {α : Type} (c : Nat) (xs : List α) (x : α) : List α :=
  let s := xs ++ [x]
  if c < s.length then s.drop (s.length - c) else s

/-- `_append_with_window` from `src/domain/services/context/state.py`
(lines 99-112): append `item`, then delete from the head whenever the length
exceeds `maxlen`; the Bool records whether truncation happened. -/
def _append_with_window {α : Type} (sequence : List α) (item : α)
    (maxlen : Nat) : List α × Bool :=
  let s := sequence ++ [item]
  if maxlen < s.length then (s.drop (s.length - maxlen), true) else (s, false)

/-- A Python value as it appears in the opaque parameter maps
(`Dict[str, Any]`): a number (int/float/bool collapse to their numeric
value for `float()`), a string, a list, a dict, or `None`. -/
inductive PVal where
  | num (q : ℚ)
  | str (s : String)
  | listv
  | dictv
  | nonev
deriving DecidableEq, Repr

/-- Numeric value of a list of decimal digit characters. -/
def digitsToNat (cs : List Char) : Nat :=
  cs.foldl (fun a ch => a * 10 + (ch.toNat - 48)) 0

/-- Model of Python `float(s)` on a string: optional sign, then either
`digits`, `digits.digits`, `digits.` or `.digits`; anything else raises
`ValueError` (modelled as `none`).  Python additionally accepts exponents
and special forms, which the repository never feeds to `float`. -/
def pyParseFloat (s : String) : Option ℚ :=
  let cs :=
    (((s.toList.dropWhile Char.isWhitespace).reverse.dropWhile
      Char.isWhitespace).reverse)
  let body : List Char :=
    match cs with
    | '+' :: r => r
    | '-' :: r => r
    | r => r
  let sign : ℚ := match cs with | '-' :: _ => -1 | _ => 1
  let intPart := body.takeWhile Char.isDigit
  let rest := body.dropWhile Char.isDigit
  match rest with
  | [] =>
      if intPart.isEmpty then none
      else some (sign * (digitsToNat intPart : ℚ))
  | '.' :: frac =>
      if frac.all Char.isDigit ∧ ¬(intPart.isEmpty ∧ frac.isEmpty) then
        some (sign * ((digitsToNat intPart : ℚ) +
          (digitsToNat frac : ℚ) / ((10 : ℚ) ^ frac.length)))
      else none
  | _ => none

/-- Model of Python `float(v)` wrapped in `try/except (TypeError, ValueError)`
as used in `orchestrator.decide`: numbers convert, parseable strings convert,
everything else (lists, dicts, `None`, unparseable strings) yields `none`. -/
def pyFloat (v : PVal) : Option ℚ :=
  match v with
  | .num q => some q
  | .str s => pyParseFloat s
  | .listv => none
  | .dictv => none
  | .nonev => none

/-- A generic Python `Dict[str, Any]` payload (trades, bars, tickers as
stored by the market cache, order-book levels are `PVal`s). -/
abbrev PyObj := List (String × PVal)

/-- `CurrencyPair` (`src/domain/entities/currency_pair.py`): the fields the
core reads.  Buffer sizes are counts, hence `Nat`. -/
structure CurrencyPair where
  symbol : String
  base_currency : String
  quote_currency : String
  enabled : Bool := true
  bar_window_size : Nat := 10000
  orderbook_depth : Nat := 2000
  trades_history_size : Nat := 5000
  indicator_window_size : Nat := 10000
deriving DecidableEq, Repr

/-- `AppConfig` (`src/config/config.py`): the fields the embedded core
reads, with the dataclass defaults. -/
structure AppConfig where
  environment : String := "local"
  symbol : String := "BTC/USDT"
  max_ticks : Int := 10
  indicator_fast_interval : Int := 1
  indicator_medium_interval : Int := 3
  indicator_heavy_interval : Int := 5
  state_snapshot_interval_ticks : Int := 100
deriving DecidableEq, Repr

/-- A stored order book after trimming
(`InMemoryMarketCache.update_orderbook`). -/
structure OrderBook where
  symbol : String
  timestamp : Option Int
  bids : List PVal
  asks : List PVal
deriving DecidableEq, Repr

/-- `InMemoryMarketCache` (`src/infrastructure/cache/in_memory.py`,
lines 19-130): latest ticker, latest order book, bounded trade and bar
FIFOs sized from the owning `CurrencyPair`. -/
structure InMemoryMarketCache where
  pair : CurrencyPair
  symbol : String
  ticker : Option PyObj
  orderbook : Option OrderBook
  trades : List PyObj
  bars : List PyObj
deriving DecidableEq, Repr

namespace InMemoryMarketCache

/-- `InMemoryMarketCache.__init__`: empty buffers, symbol taken from the pair. -/
def init (pair : CurrencyPair) : InMemoryMarketCache :=
  { pair := pair, symbol := pair.symbol, ticker := none, orderbook := none,
    trades := [], bars := [] }

/-- `update_ticker`: store the ticker unconditionally, adding the owning
symbol when the dict lacks one (`{**ticker, "symbol": self.symbol}`). -/
def update_ticker (c : InMemoryMarketCache) (ticker : PyObj) :
    InMemoryMarketCache :=
  let t := if (dictGet ticker "symbol").isSome then ticker
           else ticker ++ [("symbol", PVal.str c.symbol)]
  { c with ticker := some t }

/-- `get_ticker`. -/
def get_ticker (c : InMemoryMarketCache) : Option PyObj := c.ticker

/-- `update_orderbook`: trim both sides to at most `orderbook_depth` levels
taken from the head, default the symbol (`orderbook.get("symbol") or
self.symbol`, where an empty string is falsy), and overwrite the slot. -/
def update_orderbook (c : InMemoryMarketCache) (symbol : Option String)
    (timestamp : Option Int) (bids asks : List PVal) : InMemoryMarketCache :=
  let sym := match symbol with
    | some s => if s = "" then c.symbol else s
    | none => c.symbol
  { c with orderbook := some (OrderBook.mk sym timestamp
      (bids.take c.pair.orderbook_depth) (asks.take c.pair.orderbook_depth)) }

/-- `add_trade`: append to the trades deque (maxlen `trades_history_size`). -/
def add_trade (c : InMemoryMarketCache) (trade : PyObj) : InMemoryMarketCache :=
  { c with trades := dequeAppend c.pair.trades_history_size c.trades trade }

/-- `add_bar`: append to the bars deque (maxlen `bar_window_size`). -/
def add_bar (c : InMemoryMarketCache) (bar : PyObj) : InMemoryMarketCache :=
  { c with bars := dequeAppend c.pair.bar_window_size c.bars bar }

/-- Python `items[-limit:]` for an arbitrary `Int` index `-limit`:
a negative start counts from the end, a non-negative start (in particular
`-0 = 0`) counts from the front. -/
def pySliceFromNeg {α : Type} (items : List α) (limit : Int) : List α :=
  if 0 < limit then items.drop (items.length - limit.toNat)
  else items.drop (-limit).toNat

/-- `get_trades(limit)` (`in_memory.py` lines 107-111): all items when
`limit` is omitted or `limit >= len(items)`, else `items[-limit:]`. -/
def get_trades (c : InMemoryMarketCache) (limit : Option Int) : List PyObj :=
  let items := c.trades
  match limit with
  | none => items
  | some l => if (items.length : Int) ≤ l then items else pySliceFromNeg items l

/-- `get_bars(limit)` (`in_memory.py` lines 126-130), same shape. -/
def get_bars (c : InMemoryMarketCache) (limit : Option Int) : List PyObj :=
  let items := c.bars
  match limit with
  | none => items
  | some l => if (items.length : Int) ≤ l then items else pySliceFromNeg items l

end InMemoryMarketCache

/-- `InMemoryIndicatorStore` (`src/infrastructure/cache/in_memory.py`,
lines 133-177): three cadence intervals from `AppConfig` and three bounded
histories sized by the pair's `indicator_window_size`. -/
structure InMemoryIndicatorStore where
  pair : CurrencyPair
  fast_interval : Int
  medium_interval : Int
  heavy_interval : Int
  fast_history : List ℚ
  medium_history : List ℚ
  heavy_history : List ℚ
deriving DecidableEq, Repr

namespace InMemoryIndicatorStore

/-- `InMemoryIndicatorStore.__init__`. -/
def init (pair : CurrencyPair) (config : AppConfig) : InMemoryIndicatorStore :=
  { pair := pair,
    fast_interval := config.indicator_fast_interval,
    medium_interval := config.indicator_medium_interval,
    heavy_interval := config.indicator_heavy_interval,
    fast_history := [], medium_history := [], heavy_history := [] }

/-- `_should_update` (`in_memory.py` lines 167-168):
`interval > 0 and tick_id % interval == 0` (Python `%` agrees with
`Int.emod` for a positive divisor). -/
def _should_update (interval : Int) (tick_id : Int) : Bool :=
  interval > 0 && tick_id % interval == 0

/-- `should_update_fast` (lines 170-171). -/
def should_update_fast (s : InMemoryIndicatorStore) (tick_id : Int) : Bool :=
  _should_update s.fast_interval tick_id

/-- `should_update_medium` (lines 173-174). -/
def should_update_medium (s : InMemoryIndicatorStore) (tick_id : Int) : Bool :=
  _should_update s.medium_interval tick_id

/-- `should_update_heavy` (lines 176-177). -/
def should_update_heavy (s : InMemoryIndicatorStore) (tick_id : Int) : Bool :=
  _should_update s.heavy_interval tick_id

/-- The fast-history append the indicator engine performs when the fast
cadence is due (`indicator_engine.py` line 119:
`store.fast_history.append(last_price)`, a deque append). -/
def append_fast (s : InMemoryIndicatorStore) (x : ℚ) : InMemoryIndicatorStore :=
  { s with fast_history := dequeAppend s.pair.indicator_window_size s.fast_history x }

/-- The medium-history append (`indicator_engine.py` line 150). -/
def append_medium (s : InMemoryIndicatorStore) (x : ℚ) : InMemoryIndicatorStore :=
  { s with medium_history := dequeAppend s.pair.indicator_window_size s.medium_history x }

/-- The heavy-history append (`indicator_engine.py` line 223). -/
def append_heavy (s : InMemoryIndicatorStore) (x : ℚ) : InMemoryIndicatorStore :=
  { s with heavy_history := dequeAppend s.pair.indicator_window_size s.heavy_history x }

end InMemoryIndicatorStore

/-- The per-symbol market view stored by `update_market_state`
(`state.py` line 59: `{"last_price": price, "ts": ts}`). -/
structure Market where
  last_price : ℚ
  ts : Int
deriving DecidableEq, Repr

/-- The flat indicator snapshot built by `IndicatorEngine.on_ticker`
(`indicator_engine.py` lines 239-247): the base fields plus the merged
per-cadence indicator dict (`extra`, in insertion order). -/
structure IndSnapshot where
  symbol : String
  ticker_id : Int
  price : ℚ
  sma : ℚ
  rsi : ℚ
  ts : Option Int
  extra : List (String × ℚ)
deriving DecidableEq, Repr

/-- A strategy intent (`strategy_hub.evaluate_strategies`,
`orchestrator.decide`): every field is read with `dict.get`, so each may be
absent. -/
structure Intent where
  action : Option String
  confidence : Option ℚ
  reason : Option String
  params : Option (List (String × PVal))
deriving DecidableEq, Repr

/-- A decision dict produced by `orchestrator.decide`.  `params` and `ts`
model optional dict keys: `none` means the key is absent (the HOLD branches
carry `ts` but no `params`; the selected-intent branch carries `params` but
no `ts`). -/
structure Decision where
  action : Option String
  reason : String
  params : Option (List (String × PVal))
  ts : Option (Option Int)
deriving DecidableEq, Repr

/-- The domain `Ticker` (`src/domain/services/ticker/ticker_source.py`) as
consumed by the indicator engine.  `openPrice` renders the Python key
`open`, which is a reserved word in Lean. -/
structure Ticker where
  symbol : String
  timestamp : Int
  datetime : String
  last : ℚ
  openPrice : ℚ
  high : ℚ
  low : ℚ
  close : ℚ
  bid : ℚ
  ask : ℚ
  baseVolume : ℚ
  quoteVolume : ℚ
deriving DecidableEq, Repr

/-- The mutable in-memory context (`state.py:init_context` plus the slices
added by `build_context` and the engine): each section is a per-symbol
dict. -/
structure Ctx where
  config : AppConfig
  market : List (String × Market)
  indicators : List (String × IndSnapshot)
  positions : List (String × PVal)
  orders : List (String × PVal)
  risk : List (String × PyObj)
  metrics : List (String × Int)
  indicators_history : List (String × List IndSnapshot)
  intents : List (String × List Intent)
  decisions : List (String × Decision)
  intents_history : List (String × List (List Intent))
  decisions_history : List (String × List Decision)
  price_history : List (String × List ℚ)
  ticker_history : List (String × List Ticker)
  pairs : List (String × CurrencyPair)
  market_caches : List (String × InMemoryMarketCache)
  indicator_stores : List (String × InMemoryIndicatorStore)
deriving DecidableEq, Repr

/-- `init_context` (`state.py` lines 11-44): empty sections, metrics start
at `{"ticks": 0}`. -/
def init_context (config : AppConfig) : Ctx :=
  { config := config, market := [], indicators := [], positions := [],
    orders := [], risk := [], metrics := [("ticks", 0)],
    indicators_history := [], intents := [], decisions := [],
    intents_history := [], decisions_history := [], price_history := [],
    ticker_history := [], pairs := [], market_caches := [],
    indicator_stores := [] }

/-- `update_market_state` (`state.py` lines 47-75): write the per-symbol
market view, and when a market cache is registered for the symbol, push a
minimal ticker into it. -/
def update_market_state (context : Ctx) (symbol : String) (price : ℚ)
    (ts : Int) : Ctx :=
  let c1 := { context with market := dictSet context.market symbol ⟨price, ts⟩ }
  match dictGet c1.market_caches symbol with
  | none => c1
  | some cache =>
      let ticker : PyObj :=
        [("symbol", PVal.str symbol), ("last", PVal.num price),
         ("timestamp", PVal.num (ts : ℚ))]
      { c1 with market_caches :=
          dictSet c1.market_caches symbol (cache.update_ticker ticker) }

/-- `update_metrics` (`state.py` lines 78-82): `metrics["ticks"] = ticker_id`.
Note the parameter is declared `ticker_id` (positional-or-keyword). -/
def update_metrics (context : Ctx) (ticker_id : Int) : Ctx :=
  { context with metrics := dictSet context.metrics "ticks" ticker_id }

/-- `_get_window_size_for_symbol` (`state.py` lines 85-96). -/
def _get_window_size_for_symbol (context : Ctx) (symbol : String)
    (default : Nat := 1000) : Nat :=
  match dictGet context.pairs symbol with
  | some pair => pair.indicator_window_size
  | none => default

/-- `record_indicators` (`state.py` lines 115-141): latest snapshot plus a
windowed history via `_append_with_window`. -/
def record_indicators (context : Ctx) (symbol : String)
    (snapshot : IndSnapshot) : Ctx :=
  let hist := (dictGet context.indicators_history symbol).getD []
  let window := _get_window_size_for_symbol context symbol
  { context with
      indicators := dictSet context.indicators symbol snapshot,
      indicators_history := dictSet context.indicators_history symbol
        (_append_with_window hist snapshot window).1 }

/-- `record_intents` (`state.py` lines 144-170). -/
def record_intents (context : Ctx) (symbol : String)
    (intents : List Intent) : Ctx :=
  let hist := (dictGet context.intents_history symbol).getD []
  let window := _get_window_size_for_symbol context symbol
  { context with
      intents := dictSet context.intents symbol intents,
      intents_history := dictSet context.intents_history symbol
        (_append_with_window hist intents window).1 }

/-- `record_decision` (`state.py` lines 173-196). -/
def record_decision (context : Ctx) (symbol : String)
    (decision : Decision) : Ctx :=
  let hist := (dictGet context.decisions_history symbol).getD []
  let window := _get_window_size_for_symbol context symbol
  { context with
      decisions := dictSet context.decisions symbol decision,
      decisions_history := dictSet context.decisions_history symbol
        (_append_with_window hist decision window).1 }

/-- The serializable state snapshot dict built by `make_state_snapshot`
(`state.py` lines 218-229).  The tick counter is stored under the dict key
`"ticker_id"`; the separate `tick_id` field models the *other* key name,
which `StateSnapshotService.load` reads and which `make_state_snapshot`
never writes. -/
structure StateSnapshot where
  symbol : String
  ticker_id : Option Int
  tick_id : Option Int
  market : Option Market
  indicators : Option IndSnapshot
  indicators_history : List IndSnapshot
  intents : List Intent
  intents_history : List (List Intent)
  decision : Option Decision
  decisions_history : List Decision
  metrics : List (String × Int)
deriving DecidableEq, Repr

/-- `make_state_snapshot` (`state.py` lines 199-236): project the context's
per-symbol slices into a plain dict; the counter argument is the
keyword-only parameter `ticker_id` and lands under the key `"ticker_id"`. -/
def make_state_snapshot (context : Ctx) (symbol : String)
    (ticker_id : Int) : StateSnapshot :=
  { symbol := symbol,
    ticker_id := some ticker_id,
    tick_id := none,
    market := dictGet context.market symbol,
    indicators := dictGet context.indicators symbol,
    indicators_history := (dictGet context.indicators_history symbol).getD [],
    intents := (dictGet context.intents symbol).getD [],
    intents_history := (dictGet context.intents_history symbol).getD [],
    decision := dictGet context.decisions symbol,
    decisions_history := (dictGet context.decisions_history symbol).getD [],
    metrics := context.metrics }

/-- `apply_state_snapshot` (`state.py` lines 239-281): overwrite only the
high-level per-symbol slices; `market`, `indicators` and `decision` only
when the snapshot holds a non-`None` value, histories and intents always,
metrics only when the snapshot's metrics dict is non-empty (truthy). -/
def apply_state_snapshot (context : Ctx) (symbol : String)
    (snapshot : StateSnapshot) : Ctx :=
  let c := context
  let c := match snapshot.market with
    | some m => { c with market := dictSet c.market symbol m }
    | none => c
  let c := match snapshot.indicators with
    | some i => { c with indicators := dictSet c.indicators symbol i }
    | none => c
  let c :=
    { c with indicators_history :=
        dictSet c.indicators_history symbol snapshot.indicators_history }
  let c := { c with intents := dictSet c.intents symbol snapshot.intents }
  let c :=
    { c with intents_history :=
        dictSet c.intents_history symbol snapshot.intents_history }
  let c := match snapshot.decision with
    | some d => { c with decisions := dictSet c.decisions symbol d }
    | none => c
  let c :=
    { c with decisions_history :=
        dictSet c.decisions_history symbol snapshot.decisions_history }
  let c := if snapshot.metrics ≠ [] then { c with metrics := snapshot.metrics }
           else c
  c

/-- The HOLD decision `decide` starts from (`orchestrator.py` lines 57-61). -/
def holdNoAction (context : Ctx) (symbol : String) : Decision :=
  { action := some "HOLD", reason := "no_action", params := none,
    ts := some ((dictGet context.market symbol).map (·.ts)) }

/-- The risk-downgraded decision (`orchestrator.py` lines 97-101). -/
def holdRiskLimit (context : Ctx) (symbol : String) : Decision :=
  { action := some "HOLD", reason := "risk_limit_exceeded", params := none,
    ts := some ((dictGet context.market symbol).map (·.ts)) }

/-- `decide` (`src/domain/services/orchestrator/orchestrator.py` lines
6-111): first intent whose action is not HOLD wins; a numeric `amount`
above a configured numeric `max_amount` downgrades the decision to HOLD;
`float` conversion failures silently skip the risk check. -/
def decide (intents : List Intent) (context : Ctx) (tick_id : Int)
    (symbol : String) : Decision :=
  let _ := tick_id
  match intents.find? (fun i => !(i.action == some "HOLD")) with
  | none => holdNoAction context symbol
  | some chosen =>
      let d : Decision :=
        { action := chosen.action, reason := chosen.reason.getD "intent",
          params := some (chosen.params.getD []), ts := none }
      let risk_cfg := (dictGet context.risk symbol).getD []
      let max_amount := dictGet risk_cfg "max_amount"
      let params := d.params.getD []
      let amount := dictGet params "amount"
      let amount_value : Option ℚ := amount.bind pyFloat
      match max_amount, amount_value with
      | some mv, some av =>
          match pyFloat mv with
          | some m => if m < av then holdRiskLimit context symbol else d
          | none => d
      | _, _ => d

/-- `evaluate_strategies` (`src/domain/services/strategies/strategy_hub.py`
lines 6-28): demo intents alternating SELL / BUY / HOLD on tick parity. -/
def evaluate_strategies (context : Ctx) (tick_id : Int) (symbol : String) :
    List Intent :=
  let _ := context
  let _ := symbol
  if tick_id % 3 = 0 then
    [{ action := some "SELL", confidence := some (2/5),
       reason := some "demo_down", params := some [] }]
  else if tick_id % 2 = 0 then
    [{ action := some "BUY", confidence := some (7/10),
       reason := some "demo_up", params := some [("budget", PVal.num 100)] }]
  else
    [{ action := some "HOLD", confidence := some (1/10),
       reason := some "no_signal", params := some [] }]

/-- `execute` (`src/domain/services/execution/execution_service.py`): a
logging stub with no side effect on the context. -/
def execute (decision : Decision) (context : Ctx) (tick_id : Int)
    (symbol : String) : Unit :=
  let _ := decision
  let _ := context
  let _ := tick_id
  let _ := symbol
  ()

/-- A snapshot document as stored in one JSON file: the empty object (falsy
for `if not snapshot`) or a snapshot-shaped object. -/
inductive SnapDoc where
  | emptyDoc
  | snapDoc (s : StateSnapshot)
deriving DecidableEq, Repr

/-- `FileStateSnapshotStore` (`src/infrastructure/state/
file_state_snapshot_store.py` lines 36-98), modelled as a key-value map
from snapshot key to stored document; `json.dumps`/`json.loads` round-trip
is the identity on the structured document, and `load_snapshot` returns
`none` when the file is absent (read/parse failures also yield `none`). -/
abbrev FileStateSnapshotStore := List (String × SnapDoc)

/-- `save_snapshot`: last-write-wins overwrite under the key. -/
def FileStateSnapshotStore.save_snapshot (store : FileStateSnapshotStore)
    (key : String) (snapshot : StateSnapshot) : FileStateSnapshotStore :=
  dictSet store key (SnapDoc.snapDoc snapshot)

/-- `load_snapshot`. -/
def FileStateSnapshotStore.load_snapshot (store : FileStateSnapshotStore)
    (key : String) : Option SnapDoc :=
  dictGet store key

/-- Python keyword-argument binding for a call that passes every argument
(beyond the positional head) by keyword: it succeeds iff the supplied names
are exactly the declared ones; otherwise the call raises `TypeError` before
the callee body runs. -/
def kwBindOk (declared supplied : List String) : Bool :=
  supplied.all (fun s => declared.contains s) &&
  declared.all (fun d => supplied.contains d)

/-- The keyword parameters `make_state_snapshot` declares
(`state.py` line 200: `*, symbol: str, ticker_id: int`). -/
def make_state_snapshot_declared_kw : List String := ["symbol", "ticker_id"]

/-- The keyword names `StateSnapshotService.maybe_save` supplies to
`make_state_snapshot` (`state_snapshot_service.py` lines 74-78:
`symbol=..., tick_id=tick_id`). -/
def maybe_save_call_kw : List String := ["symbol", "tick_id"]

/-- `StateSnapshotService` (`src/application/services/
state_snapshot_service.py`): wraps the store and the config; the single
key is `f"{environment}:{symbol}"`. -/
structure StateSnapshotService where
  store : FileStateSnapshotStore
  cfg : AppConfig
  key : String
deriving DecidableEq, Repr

namespace StateSnapshotService

/-- `StateSnapshotService.__init__` (lines 26-29). -/
def init (store : FileStateSnapshotStore) (cfg : AppConfig) :
    StateSnapshotService :=
  { store := store, cfg := cfg, key := cfg.environment ++ ":" ++ cfg.symbol }

/-- `load` (lines 31-57): absent or empty snapshot leaves the context
untouched and returns 0; otherwise apply the snapshot and return
`int(snapshot.get("tick_id") or 0)` — note the key read is `"tick_id"`. -/
def load (svc : StateSnapshotService) (context : Ctx) : Ctx × Int :=
  match FileStateSnapshotStore.load_snapshot svc.store svc.key with
  | none => (context, 0)
  | some SnapDoc.emptyDoc => (context, 0)
  | some (SnapDoc.snapDoc s) =>
      (apply_state_snapshot context svc.cfg.symbol s, s.tick_id.getD 0)

/-- `maybe_save` (lines 59-79): no-op unless the configured interval is
positive and divides `tick_id`; when it fires, the source calls
`make_state_snapshot(context, symbol=..., tick_id=tick_id)` whose keyword
binding is checked against the declared `ticker_id` parameter. -/
def maybe_save (svc : StateSnapshotService) (context : Ctx) (tick_id : Int) :
    StateSnapshotService × Option String :=
  let interval := svc.cfg.state_snapshot_interval_ticks
  if interval ≤ 0 then (svc, none)
  else if tick_id % interval ≠ 0 then (svc, none)
  else if kwBindOk make_state_snapshot_declared_kw maybe_save_call_kw then
    let snapshot := make_state_snapshot context svc.cfg.symbol tick_id
    ({ svc with store :=
        FileStateSnapshotStore.save_snapshot svc.store svc.key snapshot },
     none)
  else
    (svc,
     some "TypeError: make_state_snapshot() got an unexpected keyword argument tick_id")

end StateSnapshotService

/-- `_sma` (`indicator_engine.py` lines 20-27); callers guarantee the list
is non-empty. -/
def _sma (values : List ℚ) : ℚ :=
  values.sum / (values.length : ℚ)

namespace IndicatorEngine

/-- `IndicatorEngine.on_ticker` (`indicator_engine.py` lines 43-262) for
environments where the defensive import of numpy/talib failed (lines
12-17, `_np = _talib = None`): the RSI / MACD / Bollinger blocks are
skipped exactly as in the source; everything else is embedded
literally.  Returns the snapshot and the updated context. -/
def on_ticker (context : Ctx) (ticker_id : Int) (symbol : String)
    (ticker : Ticker) : IndSnapshot × Ctx :=
  let last_price := ticker.last
  let hist0 := (dictGet context.price_history symbol).getD []
  let history := dequeAppend 500 hist0 last_price
  let c1 :=
    { context with price_history := dictSet context.price_history symbol history }
  let th0 := (dictGet c1.ticker_history symbol).getD []
  let c2 :=
    { c1 with ticker_history :=
        dictSet c1.ticker_history symbol (dequeAppend 500 th0 ticker) }
  let n := history.length
  let (indicators, c3) :=
    match dictGet c2.indicator_stores symbol with
    | none => (([] : List (String × ℚ)), c2)
    | some store =>
        let fastDue := store.should_update_fast ticker_id
        let fastList : List (String × ℚ) :=
          if fastDue then
            (if 5 ≤ n then [("sma_fast_5", _sma (takeLast 5 history))] else []) ++
            (if 1 ≤ n then [("sma_7", _sma (takeLast 7 history))] else []) ++
            (if 25 ≤ n then [("sma_25", _sma (takeLast 25 history))] else []) ++
            [("spread", max 0 (ticker.ask - ticker.bid)),
             ("mid_price",
              if ticker.ask ≠ 0 ∧ ticker.bid ≠ 0 then
                (ticker.ask + ticker.bid) / 2
              else last_price)]
          else []
        let store := if fastDue then store.append_fast last_price else store
        let mediumDue := store.should_update_medium ticker_id
        let mediumList : List (String × ℚ) :=
          if mediumDue then
            (if 20 ≤ n then [("sma_medium_20", _sma (takeLast 20 history))] else [])
          else []
        let store := if mediumDue then store.append_medium last_price else store
        let heavyDue := store.should_update_heavy ticker_id
        let heavyList : List (String × ℚ) :=
          if heavyDue then
            (if 100 ≤ n then [("sma_heavy_100", _sma (takeLast 100 history))] else [])
          else []
        let store := if heavyDue then store.append_heavy last_price else store
        (fastList ++ mediumList ++ heavyList,
         { c2 with indicator_stores := dictSet c2.indicator_stores symbol store })
  let ts := (dictGet c3.market symbol).map (·.ts)
  let sma_placeholder :=
    match dictGet indicators "sma_7" with
    | some v => v
    | none => last_price
  let rsi_placeholder :=
    match dictGet indicators "rsi_5" with
    | some v => v
    | none => (50 : ℚ)
  let snapshot : IndSnapshot :=
    { symbol := symbol, ticker_id := ticker_id, price := last_price,
      sma := sma_placeholder, rsi := rsi_placeholder, ts := ts,
      extra := indicators }
  (snapshot, record_indicators c3 symbol snapshot)

end IndicatorEngine

/-- `compute_indicators` (`indicator_engine.py` lines 268-308): build the
simplified ticker (every price field set to `price`, volumes 0) and
delegate to the engine.  Its keyword-only parameters are
`ticker_id, symbol, price`. -/
def compute_indicators (context : Ctx) (ticker_id : Int) (symbol : String)
    (price : ℚ) : IndSnapshot × Ctx :=
  let ts := (dictGet context.market symbol).map (·.ts)
  let ticker : Ticker :=
    { symbol := symbol, timestamp := ts.getD 0, datetime := "",
      last := price, openPrice := price, high := price, low := price,
      close := price, bid := price, ask := price,
      baseVolume := 0, quoteVolume := 0 }
  IndicatorEngine.on_ticker context ticker_id symbol ticker

/-- One pipeline stage of `TickPipelineService.process_tick`. -/
inductive Stage where
  | market
  | indicators
  | strategy
  | decision
  | execution
  | metrics
deriving DecidableEq, Repr

/-- The keyword-only parameters `compute_indicators` declares
(`indicator_engine.py` line 269). -/
def compute_indicators_declared_kw : List String := ["ticker_id", "symbol", "price"]

/-- The keyword names `process_tick` supplies to `compute_indicators`
(`tick_pipeline_service.py` lines 61-63). -/
def process_tick_indicators_call_kw : List String := ["tick_id", "symbol", "price"]

/-- The (positional-or-keyword) parameter name `update_metrics` declares
after `context` (`state.py` line 78). -/
def update_metrics_declared_kw : List String := ["ticker_id"]

/-- The keyword name `process_tick` supplies to `update_metrics`
(`tick_pipeline_service.py` line 95). -/
def process_tick_metrics_call_kw : List String := ["tick_id"]

/-- `TickPipelineService.process_tick` (`src/application/services/
tick_pipeline_service.py` lines 40-95).  Returns the list of stages whose
bodies ran, and either the final context or the `TypeError` that aborted
the tick.  Each cross-module call whose keywords are rename-sensitive is
guarded by `kwBindOk` with the declared and supplied names copied from the
source. -/
def process_tick (context : Ctx) (symbol : String) (tick_id : Int)
    (price : ℚ) (ts : Int) : List Stage × Except String Ctx :=
  let c1 := update_market_state context symbol price ts
  if kwBindOk compute_indicators_declared_kw process_tick_indicators_call_kw then
    let r := compute_indicators c1 tick_id symbol price
    let c2 := r.2
    let intents := evaluate_strategies c2 tick_id symbol
    let c3 := record_intents c2 symbol intents
    let dec := decide intents c3 tick_id symbol
    let c4 := record_decision c3 symbol dec
    let execStages : List Stage :=
      match dec.action with
      | some a =>
          if a ≠ "" ∧ a ≠ "HOLD" then
            let _ := execute dec c4 tick_id symbol
            [Stage.execution]
          else []
      | none => []
    if kwBindOk update_metrics_declared_kw process_tick_metrics_call_kw then
      let c5 := update_metrics c4 tick_id
      ([Stage.market, Stage.indicators, Stage.strategy, Stage.decision] ++
        execStages ++ [Stage.metrics], Except.ok c5)
    else
      ([Stage.market, Stage.indicators, Stage.strategy, Stage.decision] ++
        execStages,
       Except.error "TypeError: update_metrics() got an unexpected keyword argument tick_id")
  else
    ([Stage.market],
     Except.error "TypeError: compute_indicators() got an unexpected keyword argument tick_id")

/-! Concrete fixtures used by witnesses and counterexamples. -/

/-- A small currency pair (window sizes 2) for concrete evaluation. -/
def pairFix : CurrencyPair :=
  { symbol := "BTC/USDT", base_currency := "BTC", quote_currency := "USDT",
    bar_window_size := 2, orderbook_depth := 2, trades_history_size := 2,
    indicator_window_size := 2 }

/-- The default `AppConfig` (dataclass defaults). -/
def cfgFix : AppConfig := {}

/-- An indicator store for `pairFix` under the default config
(fast/medium/heavy intervals 1/3/5). -/
def storeFix : InMemoryIndicatorStore := InMemoryIndicatorStore.init pairFix cfgFix

/-- A store with the heavy cadence disabled (interval 0) and fast `1`. -/
def storeFixZeroHeavy : InMemoryIndicatorStore :=
  { storeFix with heavy_interval := 0 }

/-- A context enriched with the pair and its indicator store, as
`build_context` does for the configured symbol. -/
def ctxFix : Ctx :=
  let base := init_context cfgFix
  { base with pairs := [("BTC/USDT", pairFix)],
              indicator_stores := [("BTC/USDT", storeFix)] }

/-- `ctxFix` after one market update (price 100, ts 1). -/
def ctxFix1 : Ctx := update_market_state ctxFix "BTC/USDT" 100 1

/-- Sample trade dicts. -/
def tradeA : PyObj := [("price", PVal.num 1)]

def tradeB : PyObj := [("price", PVal.num 2)]

def tradeC : PyObj := [("price", PVal.num 3)]

/-- A cache holding exactly one trade. -/
def cacheOneTrade : InMemoryMarketCache :=
  (InMemoryMarketCache.init pairFix).add_trade tradeA

/-- A minimal indicator snapshot value. -/
def snapA : IndSnapshot :=
  { symbol := "BTC/USDT", ticker_id := 0, price := 0, sma := 0, rsi := 0,
    ts := none, extra := [] }

def snapB : IndSnapshot := { snapA with ticker_id := 1 }

def snapC : IndSnapshot := { snapA with ticker_id := 2 }

/-- A HOLD intent. -/
def intentHold : Intent :=
  { action := some "HOLD", confidence := some (1/10),
    reason := some "no_signal", params := some [] }

/-- A BUY intent with a numeric amount of 1. -/
def intentBuy : Intent :=
  { action := some "BUY", confidence := some (9/10), reason := some "x",
    params := some [("amount", PVal.num 1)] }

/-- A BUY intent whose amount is a list (cannot be converted to float). -/
def intentBuyBadAmount : Intent :=
  { intentBuy with params := some [("amount", PVal.listv)] }

/-- `ctxFix1` with a numeric risk limit `max_amount = 1/2` configured. -/
def ctxRisk : Ctx :=
  { ctxFix1 with risk := [("BTC/USDT", [("max_amount", PVal.num (1/2))])] }

/-- `ctxFix1` with an unparseable risk limit `max_amount = "abc"`. -/
def ctxRiskBad : Ctx :=
  { ctxFix1 with risk := [("BTC/USDT", [("max_amount", PVal.str "abc")])] }

/-- The snapshot-service key for the default config. -/
def keyFix : String := "local:BTC/USDT"

/-- The per-symbol price history as it stands after `on_ticker` appends the
incoming price (`indicator_engine.py` lines 59-65: a deque of maxlen 500). -/
def priceHistoryAfter (context : Ctx) (symbol : String) (price : ℚ) : List ℚ :=
  dequeAppend 500 ((dictGet context.price_history symbol).getD []) price

/-- The risk-check predicate of `decide` (`orchestrator.py` lines 77-101)
as a named Boolean: true exactly when the selected intent's params carry a
float-convertible `amount`, a float-convertible `max_amount` is configured
for the symbol, and `amount > max_amount`. -/
def riskCheckFires (context : Ctx) (symbol : String)
    (params : List (String × PVal)) : Bool :=
  match dictGet ((dictGet context.risk symbol).getD []) "max_amount",
        (dictGet params "amount").bind pyFloat with
  | some mv, some av =>
      match pyFloat mv with
      | some m => m < av
      | none => false
  | _, _ => false

/-!
Theorems.  The FIFO lemmas come first, then the per-claim theorems with
their witnesses and counterexamples.
-/

theorem _append_with_window_fst {α : Type} (s : List α) (x : α) (c : Nat) :
    (_append_with_window s x c).1 = dequeAppend c s x := by
  simp only [_append_with_window, dequeAppend]
  split <;> rfl

theorem dequeAppend_eq_takeLast {α : Type} (c : Nat) (xs : List α) (x : α) :
    dequeAppend c xs x = takeLast c (xs ++ [x]) := by
  simp only [dequeAppend, takeLast]
  split
  · rfl
  · next h =>
      have h0 : xs.length + 1 - c = 0 := by
        simp only [List.length_append, List.length_singleton] at h
        omega
      simp [h0]

theorem takeLast_append_absorb {α : Type} (c : Nat) (s t : List α) :
    takeLast c (takeLast c s ++ t) = takeLast c (s ++ t) := by
  simp only [takeLast]
  rw [← List.drop_append_of_le_length (Nat.sub_le s.length c), List.drop_drop]
  congr 1
  simp only [List.length_append, List.length_drop]
  omega

theorem foldl_dequeAppend {α : Type} (c : Nat) (items : List α) :
    ∀ init : List α,
      items.foldl (dequeAppend c) (takeLast c init) = takeLast c (init ++ items) := by
  induction items with
  | nil => intro init; simp
  | cons x xs ih =>
      intro init
      rw [List.foldl_cons, dequeAppend_eq_takeLast, takeLast_append_absorb]
      have h := ih (init ++ [x])
      simpa using h

theorem foldl_dequeAppend_nil {α : Type} (c : Nat) (items : List α) :
    items.foldl (dequeAppend c) [] = takeLast c items := by
  have h := foldl_dequeAppend c items []
  simpa [takeLast] using h

theorem takeLast_of_length_eq_add {α : Type} (c k : Nat) (items : List α)
    (h : items.length = c + k) : takeLast c items = items.drop k := by
  simp only [takeLast]
  congr 1
  omega

theorem dictGet_dictSet_self {α : Type} (d : List (String × α)) (k : String)
    (v : α) : dictGet (dictSet d k v) k = some v := by
  induction d with
  | nil => simp [dictSet, dictGet]
  | cons hd tl ih =>
      obtain ⟨k1, v1⟩ := hd
      by_cases h : k1 = k
      · simp [dictSet, dictGet, h]
      · simp [dictSet, dictGet, h, ih]

theorem dictGet_append {α : Type} (d1 d2 : List (String × α)) (k : String) :
    dictGet (d1 ++ d2) k =
      match dictGet d1 k with
      | some v => some v
      | none => dictGet d2 k := by
  induction d1 with
  | nil => simp [dictGet]
  | cons hd tl ih =>
      obtain ⟨k1, v1⟩ := hd
      by_cases h : k1 = k
      · simp [dictGet, h]
      · simp [dictGet, h, ih]

/-- C6: for every tick id, `should_update_fast/medium/heavy` returns true
iff the cadence's interval is positive and divides the tick id; an
interval of 0 makes the predicate false for every tick id. -/
theorem c6_should_update_iff (s : InMemoryIndicatorStore) (t : Int) :
    (s.should_update_fast t = true ↔
      0 < s.fast_interval ∧ t % s.fast_interval = 0) ∧
    (s.should_update_medium t = true ↔
      0 < s.medium_interval ∧ t % s.medium_interval = 0) ∧
    (s.should_update_heavy t = true ↔
      0 < s.heavy_interval ∧ t % s.heavy_interval = 0) ∧
    (s.fast_interval = 0 → s.should_update_fast t = false) ∧
    (s.medium_interval = 0 → s.should_update_medium t = false) ∧
    (s.heavy_interval = 0 → s.should_update_heavy t = false) := by
  unfold InMemoryIndicatorStore.should_update_fast
    InMemoryIndicatorStore.should_update_medium
    InMemoryIndicatorStore.should_update_heavy
    InMemoryIndicatorStore._should_update
  refine ⟨?_, ?_, ?_, ?_, ?_, ?_⟩ <;>
    simp [Bool.and_eq_true, decide_eq_true_eq]
  all_goals intro h; simp [h]

/-- Witness for C6 at a concrete store: fast interval 1 fires on tick 6,
heavy interval 0 never fires. -/
theorem c6_witness :
    InMemoryIndicatorStore.should_update_fast storeFixZeroHeavy 6 = true ∧
    InMemoryIndicatorStore.should_update_heavy storeFixZeroHeavy 6 = false :=
  ⟨((c6_should_update_iff storeFixZeroHeavy 6).1).mpr (by decide),
   (c6_should_update_iff storeFixZeroHeavy 6).2.2.2.2.2 (by decide)⟩

theorem foldl_add_trade (l : List PyObj) :
    ∀ c : InMemoryMarketCache,
      (l.foldl InMemoryMarketCache.add_trade c).trades =
        l.foldl (dequeAppend c.pair.trades_history_size) c.trades := by
  induction l with
  | nil => intro c; rfl
  | cons x xs ih =>
      intro c
      rw [List.foldl_cons, List.foldl_cons, ih]
      rfl

theorem foldl_add_bar (l : List PyObj) :
    ∀ c : InMemoryMarketCache,
      (l.foldl InMemoryMarketCache.add_bar c).bars =
        l.foldl (dequeAppend c.pair.bar_window_size) c.bars := by
  induction l with
  | nil => intro c; rfl
  | cons x xs ih =>
      intro c
      rw [List.foldl_cons, List.foldl_cons, ih]
      rfl

theorem foldl_append_fast (l : List ℚ) :
    ∀ s : InMemoryIndicatorStore,
      (l.foldl InMemoryIndicatorStore.append_fast s).fast_history =
        l.foldl (dequeAppend s.pair.indicator_window_size) s.fast_history := by
  induction l with
  | nil => intro s; rfl
  | cons x xs ih =>
      intro s
      rw [List.foldl_cons, List.foldl_cons, ih]
      rfl

theorem foldl_append_medium (l : List ℚ) :
    ∀ s : InMemoryIndicatorStore,
      (l.foldl InMemoryIndicatorStore.append_medium s).medium_history =
        l.foldl (dequeAppend s.pair.indicator_window_size) s.medium_history := by
  induction l with
  | nil => intro s; rfl
  | cons x xs ih =>
      intro s
      rw [List.foldl_cons, List.foldl_cons, ih]
      rfl

theorem foldl_append_heavy (l : List ℚ) :
    ∀ s : InMemoryIndicatorStore,
      (l.foldl InMemoryIndicatorStore.append_heavy s).heavy_history =
        l.foldl (dequeAppend s.pair.indicator_window_size) s.heavy_history := by
  induction l with
  | nil => intro s; rfl
  | cons x xs ih =>
      intro s
      rw [List.foldl_cons, List.foldl_cons, ih]
      rfl

/-- C7: after inserting `capacity + k` items into any of the bounded FIFO
histories (market-cache trades and bars, the fast/medium/heavy
indicator-store histories, and the `_append_with_window` lists backing the
context histories), the stored sequence has length exactly `capacity` and
equals the last `capacity` inserted items in insertion order; insertion is
total (never an error). -/
theorem c7_fifo_window (pair : CurrencyPair) (cfg : AppConfig) (k c : Nat)
    (trades bars : List PyObj) (vals : List ℚ) (items : List IndSnapshot)
    (ht : trades.length = pair.trades_history_size + k)
    (hb : bars.length = pair.bar_window_size + k)
    (hv : vals.length = pair.indicator_window_size + k)
    (hi : items.length = c + k) :
    (trades.foldl InMemoryMarketCache.add_trade
        (InMemoryMarketCache.init pair)).trades = trades.drop k ∧
    (trades.foldl InMemoryMarketCache.add_trade
        (InMemoryMarketCache.init pair)).trades.length = pair.trades_history_size ∧
    (bars.foldl InMemoryMarketCache.add_bar
        (InMemoryMarketCache.init pair)).bars = bars.drop k ∧
    (bars.foldl InMemoryMarketCache.add_bar
        (InMemoryMarketCache.init pair)).bars.length = pair.bar_window_size ∧
    (vals.foldl InMemoryIndicatorStore.append_fast
        (InMemoryIndicatorStore.init pair cfg)).fast_history = vals.drop k ∧
    (vals.foldl InMemoryIndicatorStore.append_medium
        (InMemoryIndicatorStore.init pair cfg)).medium_history = vals.drop k ∧
    (vals.foldl InMemoryIndicatorStore.append_heavy
        (InMemoryIndicatorStore.init pair cfg)).heavy_history = vals.drop k ∧
    (items.foldl (fun s x => (_append_with_window s x c).1) []).length = c ∧
    (items.foldl (fun s x => (_append_with_window s x c).1) []) = items.drop k := by
  have hfun : (fun (s : List IndSnapshot) (x : IndSnapshot) =>
      (_append_with_window s x c).1) = dequeAppend c := by
    funext s x
    exact _append_with_window_fst s x c
  have htr : (trades.foldl InMemoryMarketCache.add_trade
      (InMemoryMarketCache.init pair)).trades = trades.drop k := by
    rw [foldl_add_trade]
    show trades.foldl (dequeAppend pair.trades_history_size) [] = trades.drop k
    rw [foldl_dequeAppend_nil, takeLast_of_length_eq_add _ k _ ht]
  have hba : (bars.foldl InMemoryMarketCache.add_bar
      (InMemoryMarketCache.init pair)).bars = bars.drop k := by
    rw [foldl_add_bar]
    show bars.foldl (dequeAppend pair.bar_window_size) [] = bars.drop k
    rw [foldl_dequeAppend_nil, takeLast_of_length_eq_add _ k _ hb]
  have hit : (items.foldl (fun s x => (_append_with_window s x c).1) [])
      = items.drop k := by
    rw [hfun, foldl_dequeAppend_nil, takeLast_of_length_eq_add _ k _ hi]
  refine ⟨htr, ?_, hba, ?_, ?_, ?_, ?_, ?_, hit⟩
  · rw [htr]; simp [ht]
  · rw [hba]; simp [hb]
  · rw [foldl_append_fast]
    show vals.foldl (dequeAppend pair.indicator_window_size) [] = vals.drop k
    rw [foldl_dequeAppend_nil, takeLast_of_length_eq_add _ k _ hv]
  · rw [foldl_append_medium]
    show vals.foldl (dequeAppend pair.indicator_window_size) [] = vals.drop k
    rw [foldl_dequeAppend_nil, takeLast_of_length_eq_add _ k _ hv]
  · rw [foldl_append_heavy]
    show vals.foldl (dequeAppend pair.indicator_window_size) [] = vals.drop k
    rw [foldl_dequeAppend_nil, takeLast_of_length_eq_add _ k _ hv]
  · rw [hit]; simp [hi]

/-- Witness for C7 at capacity 2 and three inserted items: the oldest is
evicted and the last two remain in order. -/
theorem c7_witness :
    ([tradeA, tradeB, tradeC].foldl InMemoryMarketCache.add_trade
      (InMemoryMarketCache.init pairFix)).trades = [tradeB, tradeC] ∧
    (([1, 2, 3] : List ℚ).foldl InMemoryIndicatorStore.append_fast
      (InMemoryIndicatorStore.init pairFix cfgFix)).fast_history = [2, 3] ∧
    ([snapA, snapB, snapC].foldl
      (fun s x => (_append_with_window s x 2).1) []) = [snapB, snapC] := by
  have h := c7_fifo_window pairFix cfgFix 1 2 [tradeA, tradeB, tradeC]
    [tradeA, tradeB, tradeC] [1, 2, 3] [snapA, snapB, snapC]
    (by decide) (by decide) (by decide) (by decide)
  exact ⟨h.1.trans (by decide), h.2.2.2.2.1.trans (by decide),
    h.2.2.2.2.2.2.2.2.trans (by decide)⟩

/-- C9 counterexample: the claim says `limit = 0` yields the empty list,
but on a cache holding one trade, `get_trades(0)` returns all stored
trades (Python `items[-0:]` is the whole list). -/
theorem c9_counterexample :
    cacheOneTrade.get_trades (some 0) = [tradeA] ∧
    ([tradeA] : List PyObj) ≠ [] := by
  constructor
  · decide
  · decide

/-- C9 (amended): for `limit ≥ 1`, `get_trades`/`get_bars` return exactly
the most recent `limit` entries in insertion order; with `limit` omitted
they return all entries; with `limit = 0` they also return all stored
entries (not the empty list). -/
theorem c9_get_trades_bars (cache : InMemoryMarketCache) (l : Int)
    (hl : 1 ≤ l) :
    cache.get_trades (some l) = takeLast l.toNat cache.trades ∧
    cache.get_bars (some l) = takeLast l.toNat cache.bars ∧
    cache.get_trades none = cache.trades ∧
    cache.get_bars none = cache.bars ∧
    cache.get_trades (some 0) = cache.trades ∧
    cache.get_bars (some 0) = cache.bars := by
  refine ⟨?_, ?_, rfl, rfl, ?_, ?_⟩
  · simp only [InMemoryMarketCache.get_trades,
      InMemoryMarketCache.pySliceFromNeg, takeLast]
    split
    · next h =>
        have h0 : cache.trades.length - l.toNat = 0 := by omega
        simp [h0]
    · next h => rw [if_pos (by omega : (0 : Int) < l)]
  · simp only [InMemoryMarketCache.get_bars,
      InMemoryMarketCache.pySliceFromNeg, takeLast]
    split
    · next h =>
        have h0 : cache.bars.length - l.toNat = 0 := by omega
        simp [h0]
    · next h => rw [if_pos (by omega : (0 : Int) < l)]
  · simp only [InMemoryMarketCache.get_trades,
      InMemoryMarketCache.pySliceFromNeg]
    split
    · rfl
    · simp
  · simp only [InMemoryMarketCache.get_bars,
      InMemoryMarketCache.pySliceFromNeg]
    split
    · rfl
    · simp

/-- Witness for C9 on a cache holding one trade and limit 1. -/
theorem c9_witness :
    cacheOneTrade.get_trades (some 1) = [tradeA] ∧
    cacheOneTrade.get_trades none = [tradeA] := by
  have h := c9_get_trades_bars cacheOneTrade 1 (by decide)
  exact ⟨h.1.trans (by decide), h.2.2.1.trans (by decide)⟩

theorem decide_chosen (intents : List Intent) (context : Ctx) (tick_id : Int)
    (symbol : String) (i : Intent)
    (hf : intents.find? (fun j => !(j.action == some "HOLD")) = some i) :
    decide intents context tick_id symbol =
      (if riskCheckFires context symbol (i.params.getD []) then
        holdRiskLimit context symbol
      else
        { action := i.action, reason := i.reason.getD "intent",
          params := some (i.params.getD []), ts := none }) := by
  unfold decide riskCheckFires
  rw [hf]
  simp only [Option.getD_some]
  cases hmax : dictGet ((dictGet context.risk symbol).getD []) "max_amount" with
  | none =>
      cases hamt : (dictGet (i.params.getD []) "amount").bind pyFloat <;> simp
  | some mv =>
      cases hamt : (dictGet (i.params.getD []) "amount").bind pyFloat with
      | none => simp
      | some av =>
          cases hpf : pyFloat mv with
          | none => simp [hpf]
          | some m =>
              by_cases hlt : m < av
              · simp [hpf, hlt]
              · simp [hpf, hlt]

/-- C5: with no intents or only HOLD intents the decision is HOLD with
reason `no_action`; otherwise the first non-HOLD intent is selected
verbatim (action, reason, params) whenever the risk check does not fire;
and with a numeric `amount` above a configured numeric `max_amount` the
decision is downgraded to HOLD with reason `risk_limit_exceeded` and the
original params discarded. -/
theorem c5_decide (intents : List Intent) (context : Ctx) (tick_id : Int)
    (symbol : String) :
    ((∀ i ∈ intents, i.action = some "HOLD") →
      decide intents context tick_id symbol = holdNoAction context symbol) ∧
    (∀ i, intents.find? (fun j => !(j.action == some "HOLD")) = some i →
      riskCheckFires context symbol (i.params.getD []) = false →
      ∀ r p, i.reason = some r → i.params = some p →
      decide intents context tick_id symbol =
        { action := i.action, reason := r, params := some p, ts := none }) ∧
    (∀ i p a m, intents.find? (fun j => !(j.action == some "HOLD")) = some i →
      i.params = some p →
      dictGet p "amount" = some (PVal.num a) →
      dictGet ((dictGet context.risk symbol).getD []) "max_amount" =
        some (PVal.num m) →
      m < a →
      decide intents context tick_id symbol = holdRiskLimit context symbol) := by
  refine ⟨?_, ?_, ?_⟩
  · intro h
    have hn : intents.find? (fun j => !(j.action == some "HOLD")) = none := by
      rw [List.find?_eq_none]
      intro x hx
      simp [h x hx]
    unfold decide
    rw [hn]
  · intro i hf hrisk r p hr hp
    rw [decide_chosen intents context tick_id symbol i hf, hrisk]
    simp [hr, hp]
  · intro i p a m hf hp ha hm hlt
    rw [decide_chosen intents context tick_id symbol i hf]
    have hfires : riskCheckFires context symbol (i.params.getD []) = true := by
      unfold riskCheckFires
      rw [hp]
      simp only [Option.getD_some]
      rw [hm, ha]
      simp [pyFloat, hlt]
    rw [hfires]
    simp

/-- Witness for C5: the three scenarios of the spec's test list (all-HOLD,
first non-HOLD selected verbatim, risk downgrade at amount 1 over limit
1/2). -/
theorem c5_witness :
    decide [intentHold] ctxFix1 1 "BTC/USDT" = holdNoAction ctxFix1 "BTC/USDT" ∧
    decide [intentHold, intentBuy] ctxFix1 1 "BTC/USDT" =
      { action := some "BUY", reason := "x",
        params := some [("amount", PVal.num 1)], ts := none } ∧
    decide [intentBuy] ctxRisk 1 "BTC/USDT" = holdRiskLimit ctxRisk "BTC/USDT" := by
  refine ⟨(c5_decide _ _ _ _).1 ?_, ?_, ?_⟩
  · intro i hi
    rw [List.mem_singleton] at hi
    subst hi
    decide
  · exact (c5_decide [intentHold, intentBuy] ctxFix1 1 "BTC/USDT").2.1
      intentBuy rfl (by decide) "x" [("amount", PVal.num 1)] rfl rfl
  · exact (c5_decide [intentBuy] ctxRisk 1 "BTC/USDT").2.2
      intentBuy [("amount", PVal.num 1)] 1 (1/2)
      rfl rfl rfl rfl (by norm_num)

/-- C10: when the selected intent's `amount`, or the configured
`max_amount`, cannot be converted to float, `decide` silently skips the
risk check and returns the intent's action, reason and params unchanged. -/
theorem c10_decide_unconvertible (intents : List Intent) (context : Ctx)
    (tick_id : Int) (symbol : String) (i : Intent) (p : List (String × PVal))
    (hf : intents.find? (fun j => !(j.action == some "HOLD")) = some i)
    (hp : i.params = some p) :
    (∀ v, dictGet p "amount" = some v → pyFloat v = none →
      decide intents context tick_id symbol =
        { action := i.action, reason := i.reason.getD "intent",
          params := some p, ts := none }) ∧
    (∀ a mv, dictGet p "amount" = some (PVal.num a) →
      dictGet ((dictGet context.risk symbol).getD []) "max_amount" = some mv →
      pyFloat mv = none →
      decide intents context tick_id symbol =
        { action := i.action, reason := i.reason.getD "intent",
          params := some p, ts := none }) := by
  constructor
  · intro v hv hpf
    rw [decide_chosen intents context tick_id symbol i hf]
    have hfires : riskCheckFires context symbol (i.params.getD []) = false := by
      unfold riskCheckFires
      rw [hp]
      simp only [Option.getD_some]
      rw [hv]
      simp [hpf]
    rw [hfires]
    simp [hp]
  · intro a mv ha hm hpf
    rw [decide_chosen intents context tick_id symbol i hf]
    have hfires : riskCheckFires context symbol (i.params.getD []) = false := by
      unfold riskCheckFires
      rw [hp]
      simp only [Option.getD_some]
      rw [hm, ha]
      show (match pyFloat mv with
        | some m => Decidable.decide (m < a)
        | none => false) = false
      rw [hpf]
    rw [hfires]
    simp [hp]

/-- Witness for C10: a list-valued amount with a numeric limit configured,
and a numeric amount with an unparseable string limit, both pass through
unchanged. -/
theorem c10_witness :
    decide [intentBuyBadAmount] ctxRisk 1 "BTC/USDT" =
      { action := some "BUY", reason := "x",
        params := some [("amount", PVal.listv)], ts := none } ∧
    decide [intentBuy] ctxRiskBad 1 "BTC/USDT" =
      { action := some "BUY", reason := "x",
        params := some [("amount", PVal.num 1)], ts := none } := by
  constructor
  · exact (c10_decide_unconvertible [intentBuyBadAmount] ctxRisk 1 "BTC/USDT"
      intentBuyBadAmount [("amount", PVal.listv)] rfl rfl).1
      PVal.listv rfl rfl
  · exact (c10_decide_unconvertible [intentBuy] ctxRiskBad 1 "BTC/USDT"
      intentBuy [("amount", PVal.num 1)] rfl rfl).2
      1 (PVal.str "abc") rfl rfl (by decide)

/-- C1 (code behavior): for every tick, `process_tick` completes only the
market-update stage and then aborts with a `TypeError`, because it calls
`compute_indicators` with keyword `tick_id` while the callee declares
`ticker_id`; the indicator, strategy, decision, execution and metrics
stages never run. -/
theorem c1_process_tick_typeerror (context : Ctx) (symbol : String)
    (tick_id : Int) (price : ℚ) (ts : Int) :
    (process_tick context symbol tick_id price ts).1 = [Stage.market] ∧
    (process_tick context symbol tick_id price ts).2 =
      Except.error
        "TypeError: compute_indicators() got an unexpected keyword argument tick_id" :=
  ⟨rfl, rfl⟩

/-- C3 (code behavior): `maybe_save` never writes to the store for any
interval and any tick id; exactly when the configured interval is positive
and divides the tick id — the cases where the claim requires a write — it
instead raises a `TypeError`, because it calls `make_state_snapshot` with
keyword `tick_id` while the callee declares `ticker_id`. -/
theorem c3_maybe_save_never_writes (svc : StateSnapshotService) (context : Ctx)
    (tick_id : Int) :
    (StateSnapshotService.maybe_save svc context tick_id).1 = svc ∧
    ((StateSnapshotService.maybe_save svc context tick_id).2 ≠ none ↔
      0 < svc.cfg.state_snapshot_interval_ticks ∧
        tick_id % svc.cfg.state_snapshot_interval_ticks = 0) := by
  unfold StateSnapshotService.maybe_save
  have hkw : kwBindOk make_state_snapshot_declared_kw maybe_save_call_kw = false := rfl
  rw [hkw]
  simp only [Bool.false_eq_true, if_false]
  by_cases h1 : svc.cfg.state_snapshot_interval_ticks ≤ 0
  · rw [if_pos h1]
    refine ⟨rfl, ?_⟩
    simp only [ne_eq, not_true_eq_false, false_iff, not_and]
    intro hlt
    omega
  · rw [if_neg h1]
    by_cases h2 : tick_id % svc.cfg.state_snapshot_interval_ticks ≠ 0
    · rw [if_pos h2]
      refine ⟨rfl, ?_⟩
      simp only [ne_eq, not_true_eq_false, false_iff, not_and]
      intro _ he
      exact h2 he
    · rw [if_neg h2]
      push_neg at h1 h2
      refine ⟨rfl, ?_⟩
      simp only [ne_eq, reduceCtorEq, not_false_eq_true, true_iff]
      exact ⟨h1, h2⟩

/-- C2 (code behavior): `load` returns 0 and leaves the context untouched
when the snapshot is absent or empty; but for a snapshot built by
`make_state_snapshot` (which stores the counter under the key
`"ticker_id"`) and saved through the store, `load` reads the key
`"tick_id"`, finds nothing, and returns 0 instead of the persisted
counter 42. -/
theorem c2_load_returns_zero :
    StateSnapshotService.load (StateSnapshotService.init [] cfgFix) ctxFix1 =
      (ctxFix1, 0) ∧
    StateSnapshotService.load
      { store := [(keyFix, SnapDoc.emptyDoc)], cfg := cfgFix, key := keyFix }
      ctxFix1 = (ctxFix1, 0) ∧
    (make_state_snapshot ctxFix1 "BTC/USDT" 42).ticker_id = some 42 ∧
    (StateSnapshotService.load
      { store := FileStateSnapshotStore.save_snapshot [] keyFix
          (make_state_snapshot ctxFix1 "BTC/USDT" 42),
        cfg := cfgFix, key := keyFix }
      (init_context cfgFix)).2 = 0 :=
  ⟨rfl, rfl, rfl, rfl⟩

/-- C4: round-trip of `make_state_snapshot`, a store save and re-load, and
`apply_state_snapshot` onto a freshly initialized context reproduces the
original context's market view, latest indicator snapshot, intents and
decisions with their histories, and metrics.  The hypothesis
`sctx.metrics ≠ []` holds for every context reachable from `init_context`
(which starts metrics at `ticks = 0`). -/
theorem c4_snapshot_roundtrip (cfg : AppConfig) (sctx : Ctx)
    (hm : sctx.metrics ≠ []) (key : String) (store : FileStateSnapshotStore)
    (sym : String) (n : Int) :
    FileStateSnapshotStore.load_snapshot
        (FileStateSnapshotStore.save_snapshot store key
          (make_state_snapshot sctx sym n)) key =
      some (SnapDoc.snapDoc (make_state_snapshot sctx sym n)) ∧
    (make_state_snapshot sctx sym n).ticker_id = some n ∧
    dictGet (apply_state_snapshot (init_context cfg) sym
        (make_state_snapshot sctx sym n)).market sym =
      dictGet sctx.market sym ∧
    dictGet (apply_state_snapshot (init_context cfg) sym
        (make_state_snapshot sctx sym n)).indicators sym =
      dictGet sctx.indicators sym ∧
    (dictGet (apply_state_snapshot (init_context cfg) sym
        (make_state_snapshot sctx sym n)).indicators_history sym).getD [] =
      (dictGet sctx.indicators_history sym).getD [] ∧
    (dictGet (apply_state_snapshot (init_context cfg) sym
        (make_state_snapshot sctx sym n)).intents sym).getD [] =
      (dictGet sctx.intents sym).getD [] ∧
    (dictGet (apply_state_snapshot (init_context cfg) sym
        (make_state_snapshot sctx sym n)).intents_history sym).getD [] =
      (dictGet sctx.intents_history sym).getD [] ∧
    dictGet (apply_state_snapshot (init_context cfg) sym
        (make_state_snapshot sctx sym n)).decisions sym =
      dictGet sctx.decisions sym ∧
    (dictGet (apply_state_snapshot (init_context cfg) sym
        (make_state_snapshot sctx sym n)).decisions_history sym).getD [] =
      (dictGet sctx.decisions_history sym).getD [] ∧
    (apply_state_snapshot (init_context cfg) sym
        (make_state_snapshot sctx sym n)).metrics = sctx.metrics := by
  refine ⟨?_, rfl, ?_⟩
  · unfold FileStateSnapshotStore.load_snapshot FileStateSnapshotStore.save_snapshot
    exact dictGet_dictSet_self store key _
  · unfold apply_state_snapshot make_state_snapshot init_context
    cases hM : dictGet sctx.market sym <;>
    cases hI : dictGet sctx.indicators sym <;>
    cases hD : dictGet sctx.decisions sym <;>
      simp [hm, dictGet_dictSet_self, dictGet, dictSet]

/-- Witness for C4 at a concrete context (one processed market update,
metrics `ticks = 0`): market view and metrics survive the round trip. -/
theorem c4_witness :
    dictGet (apply_state_snapshot (init_context cfgFix) "BTC/USDT"
        (make_state_snapshot ctxFix1 "BTC/USDT" 5)).market "BTC/USDT" =
      dictGet ctxFix1.market "BTC/USDT" ∧
    (apply_state_snapshot (init_context cfgFix) "BTC/USDT"
        (make_state_snapshot ctxFix1 "BTC/USDT" 5)).metrics = ctxFix1.metrics := by
  have h := c4_snapshot_roundtrip cfgFix ctxFix1 (by decide) keyFix [] "BTC/USDT" 5
  exact ⟨h.2.2.1, h.2.2.2.2.2.2.2.2.2⟩

theorem dequeAppend_ne_nil {α : Type} (c : Nat) (xs : List α) (x : α)
    (hc : 0 < c) : dequeAppend c xs x ≠ [] := by
  unfold dequeAppend
  simp only []
  split
  · next h =>
      intro he
      have hl := congrArg List.length he
      simp only [List.length_drop, List.length_nil] at hl
      simp only [List.length_append, List.length_singleton] at h hl
      omega
  · next h => simp

/-- C8 counterexample: on the very first tick (one price sample, fast
cadence due) the fast-cadence fields `sma_7` (window 7) and `spread` are
present in the snapshot, although fewer than 7 (and fewer than 5) samples
have accumulated — the claim requires them to be omitted. -/
theorem c8_counterexample :
    (dictGet (compute_indicators ctxFix1 1 "BTC/USDT" 100).1.extra
      "sma_7").isSome = true ∧
    (dictGet (compute_indicators ctxFix1 1 "BTC/USDT" 100).1.extra
      "spread").isSome = true ∧
    ((dictGet (compute_indicators ctxFix1 1 "BTC/USDT" 100).2.price_history
      "BTC/USDT").getD []).length = 1 ∧
    (1 : Nat) < 7 ∧ (1 : Nat) < 5 :=
  ⟨rfl, rfl, rfl, by decide, by decide⟩

set_option maxHeartbeats 2000000 in
/-- C8 (amended): for each cadence due on a tick, the windowed SMA
indicators (`sma_fast_5`, `sma_25`, `sma_medium_20`, `sma_heavy_100`) are
computed over the most recent N prices and present iff at least N samples
have accumulated; however the fast cadence also emits `sma_7` whenever it
is due (averaging the up-to-7 most recent prices even with fewer than 7
samples) and emits `spread` and `mid_price` unconditionally; the base
snapshot fields (symbol, tick id, price, timestamp) are always produced.
(The optional numpy/talib indicator blocks are absent in environments
where the defensive import failed, the configuration embedded here.) -/
theorem c8_indicator_guards (context : Ctx) (ticker_id : Int) (symbol : String)
    (price : ℚ) (store : InMemoryIndicatorStore)
    (hs : dictGet context.indicator_stores symbol = some store) :
    (dictGet (compute_indicators context ticker_id symbol price).1.extra
        "sma_fast_5" =
      if store.should_update_fast ticker_id ∧
          5 ≤ (priceHistoryAfter context symbol price).length then
        some (_sma (takeLast 5 (priceHistoryAfter context symbol price)))
      else none) ∧
    (dictGet (compute_indicators context ticker_id symbol price).1.extra
        "sma_7" =
      if store.should_update_fast ticker_id then
        some (_sma (takeLast 7 (priceHistoryAfter context symbol price)))
      else none) ∧
    (dictGet (compute_indicators context ticker_id symbol price).1.extra
        "sma_25" =
      if store.should_update_fast ticker_id ∧
          25 ≤ (priceHistoryAfter context symbol price).length then
        some (_sma (takeLast 25 (priceHistoryAfter context symbol price)))
      else none) ∧
    ((dictGet (compute_indicators context ticker_id symbol price).1.extra
        "spread").isSome = store.should_update_fast ticker_id) ∧
    ((dictGet (compute_indicators context ticker_id symbol price).1.extra
        "mid_price").isSome = store.should_update_fast ticker_id) ∧
    (dictGet (compute_indicators context ticker_id symbol price).1.extra
        "sma_medium_20" =
      if store.should_update_medium ticker_id ∧
          20 ≤ (priceHistoryAfter context symbol price).length then
        some (_sma (takeLast 20 (priceHistoryAfter context symbol price)))
      else none) ∧
    (dictGet (compute_indicators context ticker_id symbol price).1.extra
        "sma_heavy_100" =
      if store.should_update_heavy ticker_id ∧
          100 ≤ (priceHistoryAfter context symbol price).length then
        some (_sma (takeLast 100 (priceHistoryAfter context symbol price)))
      else none) ∧
    (compute_indicators context ticker_id symbol price).1.symbol = symbol ∧
    (compute_indicators context ticker_id symbol price).1.ticker_id = ticker_id ∧
    (compute_indicators context ticker_id symbol price).1.price = price ∧
    (compute_indicators context ticker_id symbol price).1.ts =
      (dictGet context.market symbol).map Market.ts := by
  unfold compute_indicators IndicatorEngine.on_ticker priceHistoryAfter
  simp only [hs]
  have e1 : ∀ (s : InMemoryIndicatorStore) (x : ℚ) (t : Int),
      (s.append_fast x).should_update_medium t = s.should_update_medium t :=
    fun _ _ _ => rfl
  have e2 : ∀ (s : InMemoryIndicatorStore) (x : ℚ) (t : Int),
      (s.append_fast x).should_update_heavy t = s.should_update_heavy t :=
    fun _ _ _ => rfl
  have e3 : ∀ (s : InMemoryIndicatorStore) (x : ℚ) (t : Int),
      (s.append_medium x).should_update_heavy t = s.should_update_heavy t :=
    fun _ _ _ => rfl
  simp only [apply_ite
      (fun (s : InMemoryIndicatorStore) => s.should_update_medium ticker_id),
    apply_ite
      (fun (s : InMemoryIndicatorStore) => s.should_update_heavy ticker_id),
    e1, e2, e3, ite_self]
  by_cases hf : store.should_update_fast ticker_id <;>
  by_cases hmed : store.should_update_medium ticker_id <;>
  by_cases hh : store.should_update_heavy ticker_id <;>
  simp [hf, hmed, hh, dictGet_append, dictGet] <;>
  split_ifs <;>
  simp_all [dictGet]
  all_goals
    exact (dequeAppend_ne_nil 500 _ price (by norm_num)) (by assumption)

/-- Witness for C8 on the first tick of the fixture context: `sma_fast_5`
is omitted (1 sample, window 5) while `sma_7` is present. -/
theorem c8_witness :
    dictGet (compute_indicators ctxFix1 1 "BTC/USDT" 100).1.extra
      "sma_fast_5" = none ∧
    (dictGet (compute_indicators ctxFix1 1 "BTC/USDT" 100).1.extra
      "sma_7").isSome = true := by
  have h := c8_indicator_guards ctxFix1 1 "BTC/USDT" 100 storeFix rfl
  constructor
  · rw [h.1, if_neg]
    intro hc
    exact absurd hc.2 (by decide)
  · rw [h.2.1, if_pos (by decide)]
    rfl

end ATrading
